import Mathlib

/-!
Verification of the doorman visitor-intake controller (src/agent.py).

Shallow embedding: the `VisitorData` dataclass and the six tool functions
(`update_apartment`, `update_resident`, `check_resident`, `update_visitor`,
`update_reason`, `confirm_visit`) are translated as pure state transformers
over an `AgentState` that carries the session's `VisitorData` together with
the observable history of notification attempts and log lines.

External collaborators are modelled at their interface:
- the directory lookup (`requests.get` on the backend URL) is a
  `LookupResult` parameter: success carrying the truthiness of
  `data.get("exists")`, or failure carrying the exception text
  (`requests.RequestException`);
- SMTP delivery inside `send_email` is an `EmailOutcome` parameter; the
  Python code attempts the send and swallows any exception, logging it, so
  the model records the attempted payload unconditionally and the outcome
  only in the log;
- `yaml.dump` of a flat string-to-string mapping is modelled as: sort the
  keys (pyyaml's default `sort_keys=True`, lexicographic by code point, the
  same order Python string comparison uses) and render each entry as
  `key: value` on its own line.  Scalar quoting of ambiguous values is
  elided; none of the properties proved here depend on it.  Parsing the
  rendering back (`yaml.safe_load`) is modelled as association-list lookup
  on the rendered mapping, which is faithful because pyyaml quotes any
  scalar whose plain rendering would be ambiguous, making the
  serialization lossless for arbitrary string values.

Python truthiness of an `Optional[str]` (used by `x or "unknown"` in
`summarize` and by `all([...])` in `confirm_visit`) is `truthy`: `None` and
the empty string are falsy, every other string is truthy.
-/

/-- The `VisitorData` dataclass of src/agent.py: four optional text fields
and the confirmation flag, all defaulted to absent/false. -/
structure VisitorData where
  apartment_number : Option String := none
  resident_name : Option String := none
  visitor_name : Option String := none
  visit_reason : Option String := none
  confirmed : Bool := false
deriving Repr, DecidableEq

/-- Python truthiness of an `Optional[str]`: `None` and `""` are falsy. -/
def truthy : Option String → Bool
  | none => false
  | some s => if s = "" then false else true

/-- Python `x or "unknown"` on an `Optional[str] x`: the string itself when
truthy, else the placeholder. -/
def orUnknown : Option String → String
  | none => "unknown"
  | some s => if s = "" then "unknown" else s

/-- The mapping passed to `yaml.dump` by `VisitorData.summarize`, in the
source's insertion order. -/
def VisitorData.summarizeMap (d : VisitorData) : List (String × String) :=
  [("apartment_number", orUnknown d.apartment_number),
   ("resident_name", orUnknown d.resident_name),
   ("visitor_name", orUnknown d.visitor_name),
   ("visit_reason", orUnknown d.visit_reason)]

/-- Lexicographic order on char lists by code point, as Python string
comparison (and hence pyyaml's key sort) uses. -/
def charListLe : List Char → List Char → Bool
  | [], _ => true
  | _ :: _, [] => false
  | a :: as, b :: bs =>
    if a.toNat < b.toNat then true
    else if b.toNat < a.toNat then false
    else charListLe as bs

/-- Key comparison for pyyaml's `sort_keys=True`. -/
def keyLe (a b : String) : Bool := charListLe a.data b.data

/-- Insertion into a key-sorted association list. -/
def insertPair (p : String × String) : List (String × String) → List (String × String)
  | [] => [p]
  | q :: rest => if keyLe p.1 q.1 then p :: q :: rest else q :: insertPair p rest

/-- Sort an association list by key, modelling pyyaml's default
`sort_keys=True`. -/
def sortByKey : List (String × String) → List (String × String)
  | [] => []
  | p :: rest => insertPair p (sortByKey rest)

/-- `yaml.dump` of a flat string-to-string mapping: keys sorted, one
`key: value` entry per line (block style, scalar quoting elided). -/
def yamlDump (pairs : List (String × String)) : String :=
  String.join ((sortByKey pairs).map (fun p => p.1 ++ ": " ++ p.2 ++ "\n"))

/-- `VisitorData.summarize` of src/agent.py: `yaml.dump` of the four fields
with the `"unknown"` placeholder for falsy (absent or empty) values. -/
def VisitorData.summarize (d : VisitorData) : String :=
  yamlDump d.summarizeMap

/-- Association-list lookup, modelling reading one key back out of the
parsed rendering. -/
def lookupKey (k : String) : List (String × String) → Option String
  | [] => none
  | (k', v) :: rest => if k' = k then some v else lookupKey k rest

/-- Result of the directory lookup collaborator inside `check_resident`:
a successful HTTP response carrying the truthiness of `data.get("exists")`,
or a `requests.RequestException` carrying its text. -/
inductive LookupResult where
  | success (found : Bool)
  | failure (err : String)
deriving Repr, DecidableEq

/-- Outcome of the SMTP delivery attempt inside `send_email`. -/
inductive EmailOutcome where
  | delivered
  | failed (err : String)
deriving Repr, DecidableEq

/-- The log line `send_email` emits for each delivery outcome. -/
def emailLog : EmailOutcome → String
  | .delivered => "Email sent successfully."
  | .failed e => "Failed to send email: " ++ e

/-- Session state: the `VisitorData` (`context.userdata`) plus the
observable history — payloads handed to the notification sink and log
lines. -/
structure AgentState where
  userdata : VisitorData := {}
  emailAttempts : List String := []
  logs : List String := []
deriving Repr, DecidableEq

/-- The initial session state: all fields absent, not confirmed, no
notification attempts (`AgentSession` starts with a fresh `VisitorData()`). -/
def initState : AgentState := {}

/-- `update_apartment` of src/agent.py: unconditionally records the
apartment number and confirms it back. -/
def update_apartment (apartment : String) (s : AgentState) : String × AgentState :=
  ("Apartment number recorded as " ++ apartment ++ ". Please provide the resident's name.",
   { s with userdata := { s.userdata with apartment_number := some apartment } })

/-- `update_resident` of src/agent.py. -/
def update_resident (name : String) (s : AgentState) : String × AgentState :=
  ("Resident name recorded as " ++ name ++ ". Checking if the resident exists.",
   { s with userdata := { s.userdata with resident_name := some name } })

/-- `check_resident` of src/agent.py: queries the directory collaborator and
returns a spoken message; it never touches `userdata` (the record fields are
only read to build the backend URL), and only the failure branch logs. -/
def check_resident (r : LookupResult) (s : AgentState) : String × AgentState :=
  match r with
  | .success true => ("Resident found. Please provide the visitor's name.", s)
  | .success false => ("Sorry, the resident does not exist. Have a good day!", s)
  | .failure e =>
    ("Sorry, there was an error checking the resident's details. Please try again later.",
     { s with logs := s.logs ++ ["Error checking resident: " ++ e] })

/-- `update_visitor` of src/agent.py. -/
def update_visitor (name : String) (s : AgentState) : String × AgentState :=
  ("Visitor name recorded as " ++ name ++ ". Please provide the reason for the visit.",
   { s with userdata := { s.userdata with visitor_name := some name } })

/-- `update_reason` of src/agent.py. -/
def update_reason (reason : String) (s : AgentState) : String × AgentState :=
  ("Reason for visit recorded as: " ++ reason ++ ".",
   { s with userdata := { s.userdata with visit_reason := some reason } })

/-- `send_email` of src/agent.py: attempts the SMTP send (the payload is
recorded as a notification attempt either way) and logs success or failure;
any exception is swallowed. -/
def send_email (o : EmailOutcome) (summary : String) (s : AgentState) : AgentState :=
  { s with emailAttempts := s.emailAttempts ++ [summary],
           logs := s.logs ++ [emailLog o] }

/-- The guard `all([apartment_number, resident_name, visitor_name,
visit_reason])` of `confirm_visit`: every field truthy. -/
def allFields (u : VisitorData) : Bool :=
  truthy u.apartment_number && truthy u.resident_name &&
  truthy u.visitor_name && truthy u.visit_reason

/-- `confirm_visit` of src/agent.py: if any field is falsy, return the
missing-information message and change nothing; otherwise render the
summary, call `send_email` with it, set `confirmed` and return the summary
message.  There is no check of `confirmed` itself. -/
def confirm_visit (o : EmailOutcome) (s : AgentState) : String × AgentState :=
  if allFields s.userdata then
    let summary := s.userdata.summarize
    let s1 := send_email o summary s
    ("Thank you. The following information has been sent to admin:\n" ++ summary,
     { s1 with userdata := { s1.userdata with confirmed := true } })
  else
    ("Some information is still missing. Please provide all required details.", s)

/-- One recognized conversational intent, carrying the collaborator outcome
where the operation consults a collaborator. -/
inductive Intent where
  | setApartment (v : String)
  | setResident (v : String)
  | checkRes (r : LookupResult)
  | setVisitor (v : String)
  | setReason (v : String)
  | confirm (o : EmailOutcome)
deriving Repr, DecidableEq

/-- Dispatch one intent to the matching tool function. -/
def dispatch (i : Intent) (s : AgentState) : String × AgentState :=
  match i with
  | .setApartment v => update_apartment v s
  | .setResident v => update_resident v s
  | .checkRes r => check_resident r s
  | .setVisitor v => update_visitor v s
  | .setReason v => update_reason v s
  | .confirm o => confirm_visit o s

/-- Run a sequence of intents from a state, keeping only the state (the
engine speaks each returned string and continues). -/
def run (is : List Intent) (s : AgentState) : AgentState :=
  is.foldl (fun st i => (dispatch i st).2) s

/-- Whether an intent is one of the four setter operations. -/
def isSetter : Intent → Bool
  | .setApartment _ => true
  | .setResident _ => true
  | .setVisitor _ => true
  | .setReason _ => true
  | _ => false

/-- The value an intent writes to `apartment_number`, if any. -/
def aptOf : Intent → Option String
  | .setApartment v => some v
  | _ => none

/-- The value an intent writes to `resident_name`, if any. -/
def resOf : Intent → Option String
  | .setResident v => some v
  | _ => none

/-- The value an intent writes to `visitor_name`, if any. -/
def visOf : Intent → Option String
  | .setVisitor v => some v
  | _ => none

/-- The value an intent writes to `visit_reason`, if any. -/
def reaOf : Intent → Option String
  | .setReason v => some v
  | _ => none

/-- Overwrite semantics of assignment: the newer write wins when present. -/
def overwrite (new old : Option String) : Option String :=
  match new with
  | some v => some v
  | none => old

/-- The last value a trace writes to a field (later intents win). -/
def lastVal (f : Intent → Option String) : List Intent → Option String
  | [] => none
  | i :: rest => overwrite (lastVal f rest) (f i)

/-- Whether some intent in the trace sets the given field (to any value,
the empty string included). -/
def setAtLeastOnce (f : Intent → Option String) (is : List Intent) : Bool :=
  is.any (fun i => (f i).isSome)

/-- The happy-path trace of the spec's first scenario: the four setters with
non-empty values. -/
def demoTrace : List Intent :=
  [.setApartment "12B", .setResident "Alice", .setVisitor "Bob", .setReason "delivery"]

/-- The happy-path trace followed by one confirm. -/
def c1Trace1 : List Intent := demoTrace ++ [.confirm .delivered]

/-- The happy-path trace followed by two confirms. -/
def c1Trace2 : List Intent := c1Trace1 ++ [.confirm .delivered]

/-- A fully collected, already-confirmed session state. -/
def sealedState : AgentState :=
  { userdata := { apartment_number := some "12B", resident_name := some "Alice",
                  visitor_name := some "Bob", visit_reason := some "delivery",
                  confirmed := true } }

/-- The spec's rejection scenario continued past the rejection: the lookup
reports the resident does not exist, yet the visitor keeps going. -/
def c3Trace : List Intent :=
  [.setApartment "4C", .setResident "NoSuchPerson", .checkRes (.success false),
   .setVisitor "Bob", .setReason "delivery", .confirm .delivered]

/-- A trace in which every field is set at least once but the apartment
number is set to the empty string. -/
def c4Trace : List Intent :=
  [.setApartment "", .setResident "Alice", .setVisitor "Bob", .setReason "delivery"]

/-- A record whose `visitor_name` was set to the empty string. -/
def c7Record : VisitorData :=
  { apartment_number := some "12B", resident_name := some "Alice",
    visitor_name := some "", visit_reason := some "delivery" }

/-- Setting the apartment twice, then the remaining fields. -/
def c9Trace (a1 a2 r v w : String) : List Intent :=
  [.setApartment a1, .setApartment a2, .setResident r, .setVisitor v, .setReason w]

/-- A complete record except that `visitor_name` holds the empty string. -/
def c10State : AgentState :=
  { userdata := { apartment_number := some "12B", resident_name := some "Alice",
                  visitor_name := some "", visit_reason := some "delivery" } }

/-! Helper lemmas. -/

theorem overwrite_assoc (a b : Option String) (c : Option String) :
    overwrite a (overwrite b c) = overwrite (overwrite a b) c := by
  cases a <;> cases b <;> rfl

theorem overwrite_none_right (a : Option String) : overwrite a none = a := by
  cases a <;> rfl

theorem confirm_visit_complete (o : EmailOutcome) (s : AgentState)
    (h : allFields s.userdata = true) :
    confirm_visit o s =
      ("Thank you. The following information has been sent to admin:\n" ++ s.userdata.summarize,
       { userdata := { s.userdata with confirmed := true },
         emailAttempts := s.emailAttempts ++ [s.userdata.summarize],
         logs := s.logs ++ [emailLog o] }) := by
  simp only [confirm_visit, h, if_true, send_email]

theorem confirm_visit_incomplete (o : EmailOutcome) (s : AgentState)
    (h : allFields s.userdata = false) :
    confirm_visit o s =
      ("Some information is still missing. Please provide all required details.", s) := by
  simp only [confirm_visit, h, Bool.false_eq_true, if_false]

theorem dispatch_apt (i : Intent) (s : AgentState) :
    (dispatch i s).2.userdata.apartment_number =
      overwrite (aptOf i) s.userdata.apartment_number := by
  cases i with
  | setApartment v => rfl
  | setResident v => rfl
  | checkRes r => cases r with
    | success b => cases b <;> rfl
    | failure e => rfl
  | setVisitor v => rfl
  | setReason v => rfl
  | confirm o =>
    show (confirm_visit o s).2.userdata.apartment_number = s.userdata.apartment_number
    unfold confirm_visit
    split <;> rfl

theorem dispatch_res (i : Intent) (s : AgentState) :
    (dispatch i s).2.userdata.resident_name =
      overwrite (resOf i) s.userdata.resident_name := by
  cases i with
  | setApartment v => rfl
  | setResident v => rfl
  | checkRes r => cases r with
    | success b => cases b <;> rfl
    | failure e => rfl
  | setVisitor v => rfl
  | setReason v => rfl
  | confirm o =>
    show (confirm_visit o s).2.userdata.resident_name = s.userdata.resident_name
    unfold confirm_visit
    split <;> rfl

theorem dispatch_vis (i : Intent) (s : AgentState) :
    (dispatch i s).2.userdata.visitor_name =
      overwrite (visOf i) s.userdata.visitor_name := by
  cases i with
  | setApartment v => rfl
  | setResident v => rfl
  | checkRes r => cases r with
    | success b => cases b <;> rfl
    | failure e => rfl
  | setVisitor v => rfl
  | setReason v => rfl
  | confirm o =>
    show (confirm_visit o s).2.userdata.visitor_name = s.userdata.visitor_name
    unfold confirm_visit
    split <;> rfl

theorem dispatch_rea (i : Intent) (s : AgentState) :
    (dispatch i s).2.userdata.visit_reason =
      overwrite (reaOf i) s.userdata.visit_reason := by
  cases i with
  | setApartment v => rfl
  | setResident v => rfl
  | checkRes r => cases r with
    | success b => cases b <;> rfl
    | failure e => rfl
  | setVisitor v => rfl
  | setReason v => rfl
  | confirm o =>
    show (confirm_visit o s).2.userdata.visit_reason = s.userdata.visit_reason
    unfold confirm_visit
    split <;> rfl

theorem run_apt (is : List Intent) (s : AgentState) :
    (run is s).userdata.apartment_number =
      overwrite (lastVal aptOf is) s.userdata.apartment_number := by
  induction is generalizing s with
  | nil => rfl
  | cons i rest ih =>
    show (run rest (dispatch i s).2).userdata.apartment_number = _
    rw [ih, dispatch_apt, overwrite_assoc]
    rfl

theorem run_res (is : List Intent) (s : AgentState) :
    (run is s).userdata.resident_name =
      overwrite (lastVal resOf is) s.userdata.resident_name := by
  induction is generalizing s with
  | nil => rfl
  | cons i rest ih =>
    show (run rest (dispatch i s).2).userdata.resident_name = _
    rw [ih, dispatch_res, overwrite_assoc]
    rfl

theorem run_vis (is : List Intent) (s : AgentState) :
    (run is s).userdata.visitor_name =
      overwrite (lastVal visOf is) s.userdata.visitor_name := by
  induction is generalizing s with
  | nil => rfl
  | cons i rest ih =>
    show (run rest (dispatch i s).2).userdata.visitor_name = _
    rw [ih, dispatch_vis, overwrite_assoc]
    rfl

theorem run_rea (is : List Intent) (s : AgentState) :
    (run is s).userdata.visit_reason =
      overwrite (lastVal reaOf is) s.userdata.visit_reason := by
  induction is generalizing s with
  | nil => rfl
  | cons i rest ih =>
    show (run rest (dispatch i s).2).userdata.visit_reason = _
    rw [ih, dispatch_rea, overwrite_assoc]
    rfl

theorem run_apt_init (is : List Intent) :
    (run is initState).userdata.apartment_number = lastVal aptOf is := by
  rw [run_apt]
  exact overwrite_none_right _

theorem run_res_init (is : List Intent) :
    (run is initState).userdata.resident_name = lastVal resOf is := by
  rw [run_res]
  exact overwrite_none_right _

theorem run_vis_init (is : List Intent) :
    (run is initState).userdata.visitor_name = lastVal visOf is := by
  rw [run_vis]
  exact overwrite_none_right _

theorem run_rea_init (is : List Intent) :
    (run is initState).userdata.visit_reason = lastVal reaOf is := by
  rw [run_rea]
  exact overwrite_none_right _

theorem run_setters (is : List Intent) (s : AgentState)
    (h : ∀ i ∈ is, isSetter i = true) :
    (run is s).userdata.confirmed = s.userdata.confirmed ∧
    (run is s).emailAttempts = s.emailAttempts := by
  induction is generalizing s with
  | nil => exact ⟨rfl, rfl⟩
  | cons i rest ih =>
    have hi : isSetter i = true := h i (List.mem_cons_self i rest)
    have hrest : ∀ j ∈ rest, isSetter j = true := fun j hj => h j (List.mem_cons_of_mem i hj)
    have hstep : (dispatch i s).2.userdata.confirmed = s.userdata.confirmed ∧
        (dispatch i s).2.emailAttempts = s.emailAttempts := by
      cases i with
      | setApartment v => exact ⟨rfl, rfl⟩
      | setResident v => exact ⟨rfl, rfl⟩
      | setVisitor v => exact ⟨rfl, rfl⟩
      | setReason v => exact ⟨rfl, rfl⟩
      | checkRes r => simp [isSetter] at hi
      | confirm o => simp [isSetter] at hi
    have hr := ih (dispatch i s).2 hrest
    exact ⟨hr.1.trans hstep.1, hr.2.trans hstep.2⟩

/-! Claim theorems. -/

/-- C1 counterexample: after the happy-path trace one confirm leaves the
record confirmed with one notification attempt, yet a second confirm on the
confirmed record fires the notification again (two attempts in total), so
the notification does not fire exactly once per confirmed visit. -/
theorem c1_counterexample :
    (run c1Trace1 initState).userdata.confirmed = true ∧
    (run c1Trace1 initState).emailAttempts.length = 1 ∧
    (run c1Trace2 initState).emailAttempts.length = 2 ∧
    (confirm_visit .delivered (run c1Trace1 initState)).1 =
      (confirm_visit .delivered (run demoTrace initState)).1 :=
  ⟨rfl, rfl, rfl, rfl⟩

/-- C1 (amended): `confirm_visit` never consults `confirmed`, so on a
complete record a repeated confirm returns the same summary string as the
first call but re-invokes the notification side effect — the notification
fires once per confirm call, not exactly once per confirmed visit. -/
theorem c1_confirm_not_idempotent (s : AgentState) (h : allFields s.userdata = true)
    (o₁ o₂ : EmailOutcome) :
    (confirm_visit o₂ (confirm_visit o₁ s).2).1 = (confirm_visit o₁ s).1 ∧
    (confirm_visit o₂ (confirm_visit o₁ s).2).2.emailAttempts =
      s.emailAttempts ++ [s.userdata.summarize, s.userdata.summarize] ∧
    (confirm_visit o₁ s).2.userdata.confirmed = true := by
  have h2 := confirm_visit_complete o₂
    ({ userdata := { s.userdata with confirmed := true },
       emailAttempts := s.emailAttempts ++ [s.userdata.summarize],
       logs := s.logs ++ [emailLog o₁] } : AgentState) h
  simp only [confirm_visit_complete o₁ s h, h2]
  refine ⟨rfl, ?_, trivial⟩
  rw [List.append_assoc]
  rfl

/-- C1 witness: the amended theorem instantiated on the happy-path state. -/
theorem c1_witness :
    (confirm_visit .delivered (confirm_visit .delivered (run demoTrace initState)).2).2.emailAttempts =
      (run demoTrace initState).emailAttempts ++
        [(run demoTrace initState).userdata.summarize,
         (run demoTrace initState).userdata.summarize] :=
  (c1_confirm_not_idempotent (run demoTrace initState) rfl .delivered .delivered).2.1

/-- C2 counterexample: on an already-confirmed record, `update_apartment`
returns its normal confirmation message (no SealedRecordError) and changes
the field from "12B" to "9Z". -/
theorem c2_counterexample :
    sealedState.userdata.confirmed = true ∧
    sealedState.userdata.apartment_number = some "12B" ∧
    (update_apartment "9Z" sealedState).2.userdata.apartment_number = some "9Z" ∧
    (update_apartment "9Z" sealedState).1 =
      "Apartment number recorded as 9Z. Please provide the resident's name." :=
  ⟨rfl, rfl, rfl, rfl⟩

/-- C2 (amended): no setter consults `confirmed` and no SealedRecordError
exists; even on a confirmed record each setter overwrites its field and
returns its normal confirmation message, leaving `confirmed` true. -/
theorem c2_setters_ignore_confirmed (s : AgentState) (h : s.userdata.confirmed = true)
    (v : String) :
    (update_apartment v s).2.userdata.apartment_number = some v ∧
    (update_resident v s).2.userdata.resident_name = some v ∧
    (update_visitor v s).2.userdata.visitor_name = some v ∧
    (update_reason v s).2.userdata.visit_reason = some v ∧
    (update_apartment v s).1 =
      "Apartment number recorded as " ++ v ++ ". Please provide the resident's name." ∧
    (update_apartment v s).2.userdata.confirmed = true :=
  ⟨rfl, rfl, rfl, rfl, rfl, h⟩

/-- C2 witness: the amended theorem instantiated on the sealed state. -/
theorem c2_witness :
    (update_apartment "9Z" sealedState).2.userdata.apartment_number = some "9Z" ∧
    (update_apartment "9Z" sealedState).2.userdata.confirmed = true :=
  ⟨(c2_setters_ignore_confirmed sealedState rfl "9Z").1,
   (c2_setters_ignore_confirmed sealedState rfl "9Z").2.2.2.2.2⟩

/-- C3 counterexample: after the lookup reports the resident does not
exist, `update_visitor` still returns its normal message and records the
visitor, and a later confirm still fires the notification — there is no
terminal Rejected state. -/
theorem c3_counterexample :
    (dispatch (.setVisitor "Bob") (run (c3Trace.take 3) initState)).1 =
      "Visitor name recorded as Bob. Please provide the reason for the visit." ∧
    (run (c3Trace.take 4) initState).userdata.visitor_name = some "Bob" ∧
    (run c3Trace initState).emailAttempts.length = 1 ∧
    (run c3Trace initState).userdata.confirmed = true :=
  ⟨rfl, rfl, rfl, rfl⟩

/-- C3 (amended): `check_resident` on exists=false returns the rejection
message but records nothing, so every subsequent operation behaves exactly
as if the rejection had never happened — setters mutate the record and
confirm can still notify. -/
theorem c3_no_rejected_state (s : AgentState) (v w : String) (o : EmailOutcome) :
    check_resident (.success false) s =
      ("Sorry, the resident does not exist. Have a good day!", s) ∧
    update_visitor v (check_resident (.success false) s).2 = update_visitor v s ∧
    update_reason w (check_resident (.success false) s).2 = update_reason w s ∧
    confirm_visit o (check_resident (.success false) s).2 = confirm_visit o s :=
  ⟨rfl, rfl, rfl, rfl⟩

/-- C4 counterexample: in `c4Trace` every intent is a setter and every
field is set at least once, yet confirm returns the missing-information
message, leaves the record unconfirmed and sends nothing, because the
apartment number was set to the empty string. -/
theorem c4_counterexample :
    (∀ i ∈ c4Trace, isSetter i = true) ∧
    setAtLeastOnce aptOf c4Trace = true ∧
    setAtLeastOnce resOf c4Trace = true ∧
    setAtLeastOnce visOf c4Trace = true ∧
    setAtLeastOnce reaOf c4Trace = true ∧
    confirm_visit .delivered (run c4Trace initState) =
      ("Some information is still missing. Please provide all required details.",
       run c4Trace initState) ∧
    (run c4Trace initState).userdata.confirmed = false ∧
    (run c4Trace initState).emailAttempts = [] := by
  refine ⟨?_, rfl, rfl, rfl, rfl, rfl, rfl, rfl⟩
  decide

/-- C4 (amended): for every sequence of setter calls followed by confirm,
confirm succeeds (notification attempted, `confirmed` set, summary
returned) iff the last value written to each of the four fields is a
non-empty string; otherwise it returns the missing-information message and
changes nothing. -/
theorem c4_confirm_iff_truthy (is : List Intent) (h : ∀ i ∈ is, isSetter i = true)
    (o : EmailOutcome) :
    (allFields (run is initState).userdata =
      (truthy (lastVal aptOf is) && truthy (lastVal resOf is) &&
       truthy (lastVal visOf is) && truthy (lastVal reaOf is))) ∧
    (allFields (run is initState).userdata = true →
      (confirm_visit o (run is initState)).2.userdata.confirmed = true ∧
      (confirm_visit o (run is initState)).2.emailAttempts =
        [(run is initState).userdata.summarize] ∧
      (confirm_visit o (run is initState)).1 =
        "Thank you. The following information has been sent to admin:\n" ++
          (run is initState).userdata.summarize) ∧
    (allFields (run is initState).userdata = false →
      confirm_visit o (run is initState) =
        ("Some information is still missing. Please provide all required details.",
         run is initState) ∧
      (run is initState).userdata.confirmed = false ∧
      (run is initState).emailAttempts = []) := by
  have hset := run_setters is initState h
  refine ⟨?_, ?_, ?_⟩
  · show (truthy (run is initState).userdata.apartment_number &&
        truthy (run is initState).userdata.resident_name &&
        truthy (run is initState).userdata.visitor_name &&
        truthy (run is initState).userdata.visit_reason) = _
    rw [run_apt_init, run_res_init, run_vis_init, run_rea_init]
  · intro hc
    rw [confirm_visit_complete o _ hc]
    refine ⟨rfl, ?_, rfl⟩
    show (run is initState).emailAttempts ++ _ = _
    rw [hset.2]
    rfl
  · intro hc
    rw [confirm_visit_incomplete o _ hc]
    exact ⟨rfl, hset.1, hset.2⟩

/-- C4 witness: the amended theorem instantiated on the happy-path trace. -/
theorem c4_witness :
    allFields (run demoTrace initState).userdata = true ∧
    (confirm_visit .delivered (run demoTrace initState)).2.userdata.confirmed = true := by
  have h := c4_confirm_iff_truthy demoTrace (by decide) .delivered
  exact ⟨rfl, (h.2.1 rfl).1⟩

/-- C5 counterexample: on the spec's own happy-path record the rendered key
order is not apartment_number, resident_name, visitor_name, visit_reason —
pyyaml sorts keys, and "visit_reason" sorts before "visitor_name". -/
theorem c5_counterexample :
    (sortByKey (VisitorData.summarizeMap
      { apartment_number := some "12B", resident_name := some "Alice",
        visitor_name := some "Bob", visit_reason := some "delivery" })).map Prod.fst ≠
      ["apartment_number", "resident_name", "visitor_name", "visit_reason"] := by
  decide

/-- C5 (amended): for every record, `summarize` renders the key-value
mapping in the sorted key order apartment_number, resident_name,
visit_reason, visitor_name, with the placeholder "unknown" for each absent
field. -/
theorem c5_summarize_order (d : VisitorData) :
    sortByKey d.summarizeMap =
      [("apartment_number", orUnknown d.apartment_number),
       ("resident_name", orUnknown d.resident_name),
       ("visit_reason", orUnknown d.visit_reason),
       ("visitor_name", orUnknown d.visitor_name)] ∧
    orUnknown none = "unknown" ∧
    VisitorData.summarize {} =
      "apartment_number: unknown\nresident_name: unknown\nvisit_reason: unknown\nvisitor_name: unknown\n" :=
  ⟨rfl, rfl, rfl⟩

/-- C7 counterexample: `c7Record` has `visitor_name` set (to the empty
string, not absent), yet reading the rendering back yields "unknown", not
the stored value. -/
theorem c7_counterexample :
    c7Record.visitor_name = some "" ∧
    lookupKey "visitor_name" (sortByKey c7Record.summarizeMap) = some "unknown" ∧
    some "unknown" ≠ (some "" : Option String) :=
  ⟨rfl, rfl, by decide⟩

/-- C7 (amended): reading each key back out of the rendered mapping yields
the field passed through the placeholder function: the exact stored value
for every non-empty set field, and "unknown" for absent or empty-string
fields. -/
theorem c7_roundtrip (d : VisitorData) :
    lookupKey "apartment_number" (sortByKey d.summarizeMap) = some (orUnknown d.apartment_number) ∧
    lookupKey "resident_name" (sortByKey d.summarizeMap) = some (orUnknown d.resident_name) ∧
    lookupKey "visitor_name" (sortByKey d.summarizeMap) = some (orUnknown d.visitor_name) ∧
    lookupKey "visit_reason" (sortByKey d.summarizeMap) = some (orUnknown d.visit_reason) ∧
    (∀ v : String, v ≠ "" → orUnknown (some v) = v) ∧
    orUnknown (some "") = "unknown" ∧
    orUnknown none = "unknown" := by
  refine ⟨rfl, rfl, rfl, rfl, ?_, rfl, rfl⟩
  intro v hv
  simp [orUnknown, hv]

/-- C7 witness: the amended theorem instantiated on the all-absent record
and on a concrete non-empty value. -/
theorem c7_witness :
    lookupKey "visitor_name" (sortByKey (VisitorData.summarizeMap {})) = some "unknown" ∧
    orUnknown (some "Bob") = "Bob" :=
  ⟨(c7_roundtrip {}).2.2.1.trans rfl, (c7_roundtrip {}).2.2.2.2.1 "Bob" (by decide)⟩

/-- C8: on a complete record, confirm sets `confirmed`, returns the success
message embedding the summary, and behaves identically for delivered and
failed notification delivery — the outcome shows up only in the log. -/
theorem c8_confirm_regardless_of_delivery (s : AgentState)
    (h : allFields s.userdata = true) (o : EmailOutcome) :
    (confirm_visit o s).2.userdata.confirmed = true ∧
    (confirm_visit o s).1 =
      "Thank you. The following information has been sent to admin:\n" ++ s.userdata.summarize ∧
    (confirm_visit o s).1 = (confirm_visit .delivered s).1 ∧
    (confirm_visit o s).2.userdata = (confirm_visit .delivered s).2.userdata ∧
    (confirm_visit o s).2.emailAttempts = (confirm_visit .delivered s).2.emailAttempts ∧
    (confirm_visit o s).2.logs = s.logs ++ [emailLog o] := by
  simp only [confirm_visit_complete o s h, confirm_visit_complete .delivered s h]
  exact ⟨trivial, trivial, trivial, trivial, trivial, trivial⟩

/-- C8 witness: confirm with a failed delivery on the happy-path state. -/
theorem c8_witness :
    (confirm_visit (.failed "boom") (run demoTrace initState)).2.userdata.confirmed = true ∧
    (confirm_visit (.failed "boom") (run demoTrace initState)).2.logs =
      (run demoTrace initState).logs ++ ["Failed to send email: boom"] := by
  have h := c8_confirm_regardless_of_delivery (run demoTrace initState) rfl (.failed "boom")
  exact ⟨h.1, h.2.2.2.2.2⟩

/-- C9: last-write-wins — setting the apartment twice and then the other
fields yields a record, summary entry and notification payload carrying
only the final apartment value. -/
theorem c9_last_write_wins (a1 a2 r v w : String)
    (h2 : a2 ≠ "") (hr : r ≠ "") (hv : v ≠ "") (hw : w ≠ "") :
    (run (c9Trace a1 a2 r v w) initState).userdata.apartment_number = some a2 ∧
    lookupKey "apartment_number"
      (sortByKey (run (c9Trace a1 a2 r v w) initState).userdata.summarizeMap) = some a2 ∧
    (confirm_visit .delivered (run (c9Trace a1 a2 r v w) initState)).2.emailAttempts =
      [(run (c9Trace a1 a2 r v w) initState).userdata.summarize] ∧
    (a1 ≠ a2 →
      lookupKey "apartment_number"
        (sortByKey (run (c9Trace a1 a2 r v w) initState).userdata.summarizeMap) ≠ some a1) := by
  have hl : lookupKey "apartment_number"
      (sortByKey (run (c9Trace a1 a2 r v w) initState).userdata.summarizeMap) =
      some (orUnknown (some a2)) := rfl
  have ho : orUnknown (some a2) = a2 := by simp [orUnknown, h2]
  have hc : allFields (run (c9Trace a1 a2 r v w) initState).userdata = true := by
    show (truthy (some a2) && truthy (some r) && truthy (some v) && truthy (some w)) = true
    simp [truthy, h2, hr, hv, hw]
  refine ⟨?_, ?_, ?_, ?_⟩
  · rfl
  · rw [hl, ho]
  · rw [confirm_visit_complete .delivered _ hc]
    rfl
  · intro hne
    rw [hl, ho]
    intro hcontr
    exact hne (Option.some_injective String hcontr).symm

/-- C9 witness: the theorem instantiated on concrete values, correcting
"11A" to "12B". -/
theorem c9_witness :
    (run (c9Trace "11A" "12B" "Alice" "Bob" "delivery") initState).userdata.apartment_number =
      some "12B" ∧
    lookupKey "apartment_number"
      (sortByKey (run (c9Trace "11A" "12B" "Alice" "Bob" "delivery") initState).userdata.summarizeMap) ≠
      some "11A" := by
  have h := c9_last_write_wins "11A" "12B" "Alice" "Bob" "delivery"
    (by decide) (by decide) (by decide) (by decide)
  exact ⟨h.1, h.2.2.2 (by decide)⟩

/-- C10: a field holding the empty string is treated like an absent field:
confirm returns the missing-information message and changes nothing (no
notification, `confirmed` untouched), the placeholder function renders the
empty string exactly as it renders absence, and a record whose
`visitor_name` is the empty string summarizes identically to the same
record with `visitor_name` absent. -/
theorem c10_empty_string_is_missing (s : AgentState) (o : EmailOutcome)
    (h : s.userdata.apartment_number = some "" ∨ s.userdata.resident_name = some "" ∨
         s.userdata.visitor_name = some "" ∨ s.userdata.visit_reason = some "") :
    confirm_visit o s =
      ("Some information is still missing. Please provide all required details.", s) ∧
    (confirm_visit o s).2.emailAttempts = s.emailAttempts ∧
    (confirm_visit o s).2.userdata.confirmed = s.userdata.confirmed ∧
    orUnknown (some "") = orUnknown none ∧
    (∀ d : VisitorData, d.visitor_name = some "" →
      VisitorData.summarize d = VisitorData.summarize { d with visitor_name := none }) := by
  have hf : allFields s.userdata = false := by
    rcases h with h | h | h | h <;> simp [allFields, truthy, h]
  have he := confirm_visit_incomplete o s hf
  refine ⟨he, by rw [he], by rw [he], rfl, ?_⟩
  intro d hd
  obtain ⟨da, dr, dv, dw, dc⟩ := d
  simp only at hd
  subst hd
  rfl

/-- C10 witness: the theorem instantiated on a complete record whose
visitor name is the empty string. -/
theorem c10_witness :
    confirm_visit .delivered c10State =
      ("Some information is still missing. Please provide all required details.", c10State) :=
  (c10_empty_string_is_missing c10State .delivered (Or.inr (Or.inr (Or.inl rfl)))).1

/-- C6: when the directory lookup fails, `check_resident` returns the
retry-later message and leaves the record (fields and `confirmed`) and the
notification history unchanged, and an immediate retry with a successful
lookup proceeds normally on the very same record. -/
theorem c6_lookup_failure_state_unchanged (s : AgentState) (e : String) :
    (check_resident (.failure e) s).1 =
      "Sorry, there was an error checking the resident's details. Please try again later." ∧
    (check_resident (.failure e) s).2.userdata = s.userdata ∧
    (check_resident (.failure e) s).2.emailAttempts = s.emailAttempts ∧
    (check_resident (.success true) (check_resident (.failure e) s).2).1 =
      "Resident found. Please provide the visitor's name." ∧
    (check_resident (.success true) (check_resident (.failure e) s).2).2.userdata = s.userdata :=
  ⟨rfl, rfl, rfl, rfl, rfl⟩
